import Mathlib

/-!
# VibeTask Incentive Engine — verification development

Shallow embedding of `src/lib/IncentiveEngine.ts` (the incentive
state-transition engine of the VIBE-TASK-ENGINE repository) together with
proofs of the specified properties.

Numbers that the TypeScript source treats as `number` are modelled exactly:
XP amounts and counters as `Nat`, timestamps as `Int` (epoch milliseconds,
negative values allowed), and fractional quantities (combo multiplier,
momentum samples) as `Rat`, with `Math.floor` rendered as the integer floor.
-/

namespace IncentiveEngine

/-- Difficulty rank of a task: `'S' | 'A' | 'B' | 'C'` in `types.ts`. -/
inductive Difficulty where
  | S | A | B | C
  deriving DecidableEq, Repr

/-- `GameTask` from `types.ts`.  The narrative fields (`originalText`,
`questTitle`, `flavorText`) are carried but never read by the engine. -/
structure GameTask where
  id : String
  originalText : String
  questTitle : String
  flavorText : String
  difficulty : Difficulty
  xp : Nat
  completed : Bool
  deriving DecidableEq, Repr

/-- `Achievement` from `types.ts`: a badge with identifier, icon and unlock
timestamp. -/
structure Achievement where
  id : String
  icon : String
  unlockedAt : Int
  deriving DecidableEq, Repr

/-- The `combo` sub-record of `GameState`. -/
structure ComboState where
  count : Nat
  multiplier : Rat
  lastCompletionTime : Int
  deriving DecidableEq, Repr

/-- `GameState` from `types.ts`: the player's progression snapshot. -/
structure GameState where
  level : Nat
  currentXp : Nat
  totalXpNeeded : Nat
  completedTasks : Nat
  momentum : List Rat
  combo : ComboState
  achievements : List Achievement
  deriving DecidableEq, Repr

/-- `XP_MULTIPLIER = 1.5`. -/
def XP_MULTIPLIER : Rat := 1.5

/-- `MOMENTUM_HISTORY_LIMIT = 20`. -/
def MOMENTUM_HISTORY_LIMIT : Nat := 20

/-- `COMBO_WINDOW_MS = 30000`: 30 seconds to chain a combo. -/
def COMBO_WINDOW_MS : Int := 30000

/-- `getNextLevelThreshold`: `Math.floor(currentThreshold * 1.5)`. -/
def getNextLevelThreshold (currentThreshold : Nat) : Nat :=
  (Rat.floor ((currentThreshold : Rat) * XP_MULTIPLIER)).toNat

/-- `calculateMomentum`: append `lastValue + xpGain * 0.5` to the history,
then `shift()` (drop the front element) once if the length exceeds the
cap.  `lastValue` is the last element of the history, or 0 when empty. -/
def calculateMomentum (history : List Rat) (xpGain : Nat) : List Rat :=
  let lastValue : Rat := if history.length > 0 then history.getLast?.getD 0 else 0
  let newValue : Rat := lastValue + (xpGain : Rat) * 0.5
  let newMomentum : List Rat := history ++ [newValue]
  if newMomentum.length > MOMENTUM_HISTORY_LIMIT then newMomentum.drop 1
  else newMomentum

/-- `checkAchievements`: evaluates the four achievement rules, in the fixed
order FIRST_BLOOD, COMBO_MASTER, LEGENDARY, VETERAN, each gated by "not
already unlocked" against the ids of `state.achievements`. -/
def checkAchievements (state : GameState) (task : GameTask)
    (isFirstTask : Bool) (timestamp : Int) : List Achievement :=
  let currentIds : List String := state.achievements.map (fun a => a.id)
  (if isFirstTask && !(currentIds.contains "FIRST_BLOOD") then
      [{ id := "FIRST_BLOOD", icon := "⚔️", unlockedAt := timestamp }] else []) ++
  (if state.combo.count ≥ 3 && !(currentIds.contains "COMBO_MASTER") then
      [{ id := "COMBO_MASTER", icon := "🔥", unlockedAt := timestamp }] else []) ++
  (if task.difficulty = Difficulty.S && !(currentIds.contains "LEGENDARY") then
      [{ id := "LEGENDARY", icon := "👑", unlockedAt := timestamp }] else []) ++
  (if state.level ≥ 3 && !(currentIds.contains "VETERAN") then
      [{ id := "VETERAN", icon := "🎖️", unlockedAt := timestamp }] else [])

/-- The record returned by a successful `processTaskCompletion`. -/
structure CompletionResult where
  newState : GameState
  newTasks : List GameTask
  leveledUp : Bool
  xpGained : Nat
  achievementsUnlocked : List Achievement
  comboTriggered : Bool
  deriving DecidableEq, Repr

/-- `processTaskCompletion`, with the event timestamp already resolved (the
`timestampOverride ?? Date.now()` defaulting is modelled separately by
`processTaskCompletionOpt`).  Follows the source step by step: lookup and
no-op check, task-list update, combo evaluation, XP computation with the
combo multiplier, a single-pass level check, momentum update, intermediate
state, achievement evaluation, final state. -/
def processTaskCompletion (taskId : String) (currentTasks : List GameTask)
    (currentState : GameState) (now : Int) : Option CompletionResult :=
  match currentTasks.find? (fun t => t.id == taskId) with
  | none => none
  | some task =>
    if task.completed then none else
    -- 1. Update Task List
    let newTasks := currentTasks.map (fun t =>
      if t.id == taskId then { t with completed := true } else t)
    let isFirstTask := currentState.completedTasks == 0
    -- 2. Combo Calculation
    let timeDiff : Int := now - currentState.combo.lastCompletionTime
    let chained : Bool :=
      timeDiff < COMBO_WINDOW_MS && currentState.combo.lastCompletionTime > 0
    let comboCount : Nat := if chained then currentState.combo.count + 1 else 1
    let comboMultiplier : Rat :=
      if chained then 1 + (comboCount : Rat) * 0.1 else 1
    -- 3. XP Calculation
    let baseXp := task.xp
    let finalXp : Nat := (Rat.floor ((baseXp : Rat) * comboMultiplier)).toNat
    -- 4. Level Calculation (single pass, as in the source)
    let provisionalXp := currentState.currentXp + finalXp
    let leveledUp : Bool := provisionalXp ≥ currentState.totalXpNeeded
    let newXp : Nat :=
      if provisionalXp ≥ currentState.totalXpNeeded then
        provisionalXp - currentState.totalXpNeeded
      else provisionalXp
    let newLevel : Nat :=
      if provisionalXp ≥ currentState.totalXpNeeded then currentState.level + 1
      else currentState.level
    let newTotalNeeded : Nat :=
      if provisionalXp ≥ currentState.totalXpNeeded then
        getNextLevelThreshold currentState.totalXpNeeded
      else currentState.totalXpNeeded
    -- 5. Momentum
    let newMomentum := calculateMomentum currentState.momentum finalXp
    -- 6. Intermediate State for Achievement Check
    let intermediateState : GameState :=
      { currentState with
        level := newLevel
        currentXp := newXp
        totalXpNeeded := newTotalNeeded
        completedTasks := currentState.completedTasks + 1
        momentum := newMomentum
        combo :=
          { count := comboCount
            multiplier := comboMultiplier
            lastCompletionTime := now } }
    -- 7. Achievements
    let newAchievements := checkAchievements intermediateState task isFirstTask now
    let finalAchievements := currentState.achievements ++ newAchievements
    let finalState : GameState := { intermediateState with achievements := finalAchievements }
    some
      { newState := finalState
        newTasks := newTasks
        leveledUp := leveledUp
        xpGained := finalXp
        achievementsUnlocked := newAchievements
        comboTriggered := comboCount > 1 }

/-- The actual entry point: `timestampOverride` is optional and the source
resolves the event time as `timestampOverride ?? Date.now()`; the ambient
wall clock is passed explicitly here so the defaulting is observable. -/
def processTaskCompletionOpt (taskId : String) (currentTasks : List GameTask)
    (currentState : GameState) (timestampOverride : Option Int)
    (wallClock : Int) : Option CompletionResult :=
  processTaskCompletion taskId currentTasks currentState
    (timestampOverride.getD wallClock)

/-- `createInitialState`: level 1, 0 XP toward a 1000-XP threshold, the
seeded momentum history, zeroed combo, no achievements. -/
def createInitialState : GameState :=
  { level := 1
    currentXp := 0
    totalXpNeeded := 1000
    completedTasks := 0
    momentum := [0, 100, 150, 120, 200]
    combo := { count := 0, multiplier := 1, lastCompletionTime := 0 }
    achievements := [] }

/-! ## Named components of a successful completion

The source computes everything in local constants inside
`processTaskCompletion`.  The following definitions name those local
values so that theorems can speak about them; the lemma
`processTaskCompletion_eq_some` proves that a successful call is exactly
the assembly of these pieces. -/

/-- The combo-chain condition: `timeDiff < COMBO_WINDOW_MS &&
lastCompletionTime > 0`. -/
def comboChained (st : GameState) (now : Int) : Bool :=
  now - st.combo.lastCompletionTime < COMBO_WINDOW_MS && st.combo.lastCompletionTime > 0

/-- The combo count after the event. -/
def comboCountAfter (st : GameState) (now : Int) : Nat :=
  if comboChained st now then st.combo.count + 1 else 1

/-- The combo multiplier after the event. -/
def comboMultiplierAfter (st : GameState) (now : Int) : Rat :=
  if comboChained st now then 1 + (comboCountAfter st now : Rat) * 0.1 else 1

/-- The XP awarded for completing `task`: `Math.floor(baseXp * comboMultiplier)`. -/
def awardedXpFor (task : GameTask) (st : GameState) (now : Int) : Nat :=
  (Rat.floor ((task.xp : Rat) * comboMultiplierAfter st now)).toNat

/-- Whether the (single-pass) level check fires. -/
def levelsUp (task : GameTask) (st : GameState) (now : Int) : Prop :=
  st.currentXp + awardedXpFor task st now ≥ st.totalXpNeeded

instance (task : GameTask) (st : GameState) (now : Int) :
    Decidable (levelsUp task st now) := Nat.decLe _ _

/-- The intermediate snapshot (pre-achievement-append) of a successful call. -/
def intermediateStateFor (task : GameTask) (st : GameState) (now : Int) : GameState :=
  { st with
    level := if levelsUp task st now then st.level + 1 else st.level
    currentXp :=
      if levelsUp task st now then
        st.currentXp + awardedXpFor task st now - st.totalXpNeeded
      else st.currentXp + awardedXpFor task st now
    totalXpNeeded :=
      if levelsUp task st now then getNextLevelThreshold st.totalXpNeeded
      else st.totalXpNeeded
    completedTasks := st.completedTasks + 1
    momentum := calculateMomentum st.momentum (awardedXpFor task st now)
    combo :=
      { count := comboCountAfter st now
        multiplier := comboMultiplierAfter st now
        lastCompletionTime := now } }

/-- The full result of a successful call, assembled from the named pieces. -/
def successResult (taskId : String) (tasks : List GameTask) (st : GameState)
    (task : GameTask) (now : Int) : CompletionResult :=
  let inter := intermediateStateFor task st now
  let unlocked := checkAchievements inter task (st.completedTasks == 0) now
  { newState := { inter with achievements := st.achievements ++ unlocked }
    newTasks := tasks.map (fun t => if t.id == taskId then { t with completed := true } else t)
    leveledUp := decide (levelsUp task st now)
    xpGained := awardedXpFor task st now
    achievementsUnlocked := unlocked
    comboTriggered := decide (comboCountAfter st now > 1) }

/-- A task whose award spans several level thresholds (positive `baseXp`,
unique id, not completed). -/
def bigAwardTask : GameTask :=
  { id := "t1", originalText := "big", questTitle := "big", flavorText := "big",
    difficulty := Difficulty.B, xp := 5000, completed := false }

/-! ## Concrete fixtures and witnesses -/

/-- An S-rank task used as a concrete completion input. -/
def taskA : GameTask :=
  { id := "a", originalText := "", questTitle := "", flavorText := "",
    difficulty := Difficulty.S, xp := 100, completed := false }

/-- A second task, with a different id. -/
def taskB : GameTask :=
  { id := "b", originalText := "", questTitle := "", flavorText := "",
    difficulty := Difficulty.B, xp := 50, completed := false }

/-- A snapshot with a live combo chain (last completion at t = 1000). -/
def stChained : GameState :=
  { createInitialState with
    combo := { count := 1, multiplier := 1, lastCompletionTime := 1000 } }

/-- The result of completing `taskA` from the initial state at t = 1000. -/
def rA : CompletionResult :=
  (processTaskCompletion "a" [taskA] createInitialState 1000).get (by decide)

/-- The result of completing `taskA` from `stChained` at t = 5000 (inside
the combo window). -/
def rB : CompletionResult :=
  (processTaskCompletion "a" [taskA] stChained 5000).get (by decide)

/-- The result of completing `taskA` from the initial state at t = 0. -/
def rC : CompletionResult :=
  (processTaskCompletion "a" [taskA] createInitialState 0).get (by decide)

/-- The result of completing `taskB` at t = 10 from the snapshot `rC`
produced with timestamp 0. -/
def rD : CompletionResult :=
  (processTaskCompletion "b" [taskB] rC.newState 10).get (by decide)

/-- A successful `processTaskCompletion` call (task found and not yet
completed) returns exactly `successResult`. -/
theorem processTaskCompletion_eq_some (taskId : String) (tasks : List GameTask)
    (st : GameState) (now : Int) (task : GameTask)
    (hfind : tasks.find? (fun t => t.id == taskId) = some task)
    (hc : task.completed = false) :
    processTaskCompletion taskId tasks st now =
      some (successResult taskId tasks st task now) := by
  simp only [processTaskCompletion, hfind, hc, Bool.false_eq_true, if_false,
    successResult, intermediateStateFor, comboChained, comboCountAfter,
    comboMultiplierAfter, awardedXpFor, levelsUp, ge_iff_le]

/-! ## Arithmetic facts about the floored multipliers -/

/-- `Rat.floor` agrees with the `Int.floor` of the `FloorRing` instance. -/
theorem ratFloor_eq_intFloor (q : Rat) : q.floor = ⌊q⌋ :=
  (Rat.floor_def' q).trans Rat.floor_def.symm

/-- On integer thresholds, `Math.floor(t * 1.5)` is exactly `t * 3 / 2`. -/
theorem getNextLevelThreshold_eq (t : Nat) : getNextLevelThreshold t = t * 3 / 2 := by
  unfold getNextLevelThreshold XP_MULTIPLIER
  have h : (t : ℚ) * 1.5 = ((t * 3 : ℕ) : ℚ) / ((2 : ℕ) : ℚ) := by
    push_cast
    norm_num
    ring
  rw [ratFloor_eq_intFloor, h, Rat.floor_natCast_div_natCast]
  push_cast
  omega

/-- `Math.floor(b * (1 + c * 0.1))` on naturals is exactly `b * (10 + c) / 10`. -/
theorem floor_mul_tenths (b c : Nat) :
    (Rat.floor ((b : ℚ) * (1 + (c : ℚ) * 0.1))).toNat = b * (10 + c) / 10 := by
  have h : (b : ℚ) * (1 + (c : ℚ) * 0.1) = ((b * (10 + c) : ℕ) : ℚ) / ((10 : ℕ) : ℚ) := by
    push_cast
    norm_num
    ring
  rw [ratFloor_eq_intFloor, h, Rat.floor_natCast_div_natCast]
  generalize b * (10 + c) = m
  push_cast
  omega

/-- With the neutral multiplier the award is the base XP unchanged. -/
theorem floor_mul_one (b : Nat) : (Rat.floor ((b : ℚ) * 1)).toNat = b := by
  rw [ratFloor_eq_intFloor, mul_one]
  simp

/-- The awarded XP in closed natural-number form. -/
theorem awardedXpFor_eq (task : GameTask) (st : GameState) (now : Int) :
    awardedXpFor task st now =
      if comboChained st now then task.xp * (10 + comboCountAfter st now) / 10
      else task.xp := by
  unfold awardedXpFor comboMultiplierAfter
  by_cases h : comboChained st now
  · simp only [h, if_true]
    exact floor_mul_tenths task.xp (comboCountAfter st now)
  · simp only [h, if_false]
    exact floor_mul_one task.xp

/-- An unsuccessful lookup (no matching task) returns `none`. -/
theorem processTaskCompletion_eq_none_of_find_none (taskId : String)
    (tasks : List GameTask) (st : GameState) (now : Int)
    (hfind : tasks.find? (fun t => t.id == taskId) = none) :
    processTaskCompletion taskId tasks st now = none := by
  simp [processTaskCompletion, hfind]

/-- A lookup hitting an already-completed task returns `none`. -/
theorem processTaskCompletion_eq_none_of_completed (taskId : String)
    (tasks : List GameTask) (st : GameState) (now : Int) (task : GameTask)
    (hfind : tasks.find? (fun t => t.id == taskId) = some task)
    (hc : task.completed = true) :
    processTaskCompletion taskId tasks st now = none := by
  simp [processTaskCompletion, hfind, hc]

/-! ## C1 / C2: the level check is a single pass, not a loop -/

/-- C1: the spec claims `0 ≤ currentXp < xpNeededForNextLevel` holds for every
snapshot reachable from `createInitialState` via non-null completions with
positive `baseXp`.  The code performs only a single threshold subtraction, so
one completion of a 5000-XP task from the initial state (threshold 1000)
yields `currentXp = 4000` against `xpNeededForNextLevel = 1500`, violating
the invariant: the overflow is NOT folded into further level-ups. -/
theorem C1_xp_invariant_violated_by_large_award :
    (processTaskCompletion "t1" [bigAwardTask] createInitialState 1000).map
        (fun r => (r.newState.currentXp, r.newState.totalXpNeeded,
          decide (r.newState.currentXp < r.newState.totalXpNeeded))) =
      some (4000, 1500, false) := by
  rw [processTaskCompletion_eq_some "t1" [bigAwardTask] createInitialState 1000
    bigAwardTask (by decide) (by decide)]
  have hch : comboChained createInitialState 1000 = false := by decide
  simp only [Option.map_some, successResult, intermediateStateFor, awardedXpFor_eq, hch,
    Bool.false_eq_true, if_false, getNextLevelThreshold_eq, levelsUp, bigAwardTask, ge_iff_le]
  norm_num [createInitialState]

/-- C2: the spec claims leveling repeats as a loop while
`provisionalXp ≥ xpNeededForNextLevel`.  The code levels at most once per
call: awarding 5000 XP from the initial state (which under the loop
semantics would end at level 4, 250 XP, threshold 3375) ends at level 2
with 4000 XP still at or above the 1500 threshold, although `leveledUp`
is reported `true`. -/
theorem C2_leveling_is_single_pass_not_loop :
    (processTaskCompletion "t1" [bigAwardTask] createInitialState 1000).map
        (fun r => (r.newState.level, r.newState.currentXp,
          r.newState.totalXpNeeded, r.leveledUp)) =
      some (2, 4000, 1500, true) := by
  rw [processTaskCompletion_eq_some "t1" [bigAwardTask] createInitialState 1000
    bigAwardTask (by decide) (by decide)]
  have hch : comboChained createInitialState 1000 = false := by decide
  simp only [Option.map_some, successResult, intermediateStateFor, awardedXpFor_eq, hch,
    Bool.false_eq_true, if_false, getNextLevelThreshold_eq, levelsUp, bigAwardTask, ge_iff_le]
  norm_num [createInitialState]

/-- A successful call implies the matched task was not yet completed. -/
theorem completed_false_of_some (taskId : String) (tasks : List GameTask)
    (st : GameState) (now : Int) (task : GameTask) (r : CompletionResult)
    (hfind : tasks.find? (fun t => t.id == taskId) = some task)
    (hr : processTaskCompletion taskId tasks st now = some r) :
    task.completed = false := by
  by_contra h
  rw [processTaskCompletion_eq_none_of_completed taskId tasks st now task hfind
    (by simpa using h)] at hr
  exact Option.noConfusion hr

/-- C3: combo evaluation.  With `delta = now - lastCompletionTime`: a chain
(`lastCompletionTime > 0` and `delta < 30000`) continues with
`count + 1` and multiplier `1 + newCount * 0.1`; otherwise (including every
zero or negative `lastCompletionTime`) the chain resets to count 1 and
multiplier 1.  This holds for every integer timestamp, also out-of-order
ones.  The XP reported and added to progression is
`floor(baseXp * multiplier)`, not `baseXp`. -/
theorem C3_combo_evaluation_and_award (taskId : String) (tasks : List GameTask)
    (st : GameState) (now : Int) (task : GameTask) (r : CompletionResult)
    (hfind : tasks.find? (fun t => t.id == taskId) = some task)
    (hr : processTaskCompletion taskId tasks st now = some r) :
    (st.combo.lastCompletionTime > 0 ∧ now - st.combo.lastCompletionTime < 30000 →
        r.newState.combo.count = st.combo.count + 1 ∧
        r.newState.combo.multiplier = 1 + ((st.combo.count + 1 : ℕ) : ℚ) * 0.1) ∧
    (st.combo.lastCompletionTime ≤ 0 ∨ 30000 ≤ now - st.combo.lastCompletionTime →
        r.newState.combo.count = 1 ∧ r.newState.combo.multiplier = 1) ∧
    r.xpGained = (⌊(task.xp : ℚ) * r.newState.combo.multiplier⌋).toNat ∧
    r.newState.currentXp + (if r.leveledUp = true then st.totalXpNeeded else 0) =
      st.currentXp + r.xpGained := by
  have hc : task.completed = false :=
    completed_false_of_some taskId tasks st now task r hfind hr
  rw [processTaskCompletion_eq_some taskId tasks st now task hfind hc] at hr
  obtain rfl := Option.some.inj hr
  refine ⟨?_, ?_, ?_, ?_⟩
  · intro h
    have hch : comboChained st now = true := by
      unfold comboChained COMBO_WINDOW_MS
      simp only [Bool.and_eq_true, decide_eq_true_eq]
      exact ⟨h.2, h.1⟩
    refine ⟨?_, ?_⟩
    · simp [successResult, intermediateStateFor, comboCountAfter, hch]
    · simp [successResult, intermediateStateFor, comboMultiplierAfter, comboCountAfter, hch]
  · intro h
    have hch : comboChained st now = false := by
      unfold comboChained COMBO_WINDOW_MS
      rcases h with h | h
      · have : decide (st.combo.lastCompletionTime > 0) = false :=
          decide_eq_false (by omega)
        simp [this]
      · have : decide (now - st.combo.lastCompletionTime < 30000) = false :=
          decide_eq_false (by omega)
        simp [this]
    refine ⟨?_, ?_⟩
    · simp [successResult, intermediateStateFor, comboCountAfter, hch]
    · simp [successResult, intermediateStateFor, comboMultiplierAfter, hch]
  · simp only [successResult, intermediateStateFor, awardedXpFor, ratFloor_eq_intFloor]
  · simp only [successResult, intermediateStateFor]
    by_cases hl : levelsUp task st now
    · have hT : st.totalXpNeeded ≤ st.currentXp + awardedXpFor task st now := hl
      rw [if_pos hl]
      simp only [decide_eq_true hl, if_pos]
      omega
    · rw [if_neg hl]
      simp [decide_eq_false hl]

/-- An `if` on a `Bool` condition equals the `if` on any propositional
reading of that condition. -/
theorem ite_cond_congr {α : Type} (b : Bool) (p : Prop) [Decidable p]
    (h : b = true ↔ p) (A B : α) : (if b then A else B) = (if p then A else B) := by
  by_cases hp : p
  · rw [if_pos hp, if_pos (h.mpr hp)]
  · rw [if_neg hp]
    have hb : b = false := by
      cases hb : b
      · rfl
      · exact absurd (h.mp hb) hp
    rw [hb, if_neg (by simp)]

/-- C4: on every non-null completion exactly the four achievement rules are
evaluated in the fixed order FIRST_BLOOD, COMBO_MASTER, LEGENDARY, VETERAN,
each gated only by "not already unlocked"; FIRST_BLOOD fires when the
pre-event `completedTasks` was 0, COMBO_MASTER against the post-event combo
count, LEGENDARY on an S-rank task, VETERAN against the post-leveling level;
every new unlock carries the event timestamp, several may fire at once, and
the accumulated set is the old set with the delta list appended in that
order. -/
theorem C4_achievement_rules (taskId : String) (tasks : List GameTask)
    (st : GameState) (now : Int) (task : GameTask) (r : CompletionResult)
    (hfind : tasks.find? (fun t => t.id == taskId) = some task)
    (hr : processTaskCompletion taskId tasks st now = some r) :
    r.achievementsUnlocked =
      (if st.completedTasks = 0 ∧ "FIRST_BLOOD" ∉ st.achievements.map (fun a => a.id) then
        [{ id := "FIRST_BLOOD", icon := "⚔️", unlockedAt := now }] else []) ++
      (if 3 ≤ r.newState.combo.count ∧ "COMBO_MASTER" ∉ st.achievements.map (fun a => a.id) then
        [{ id := "COMBO_MASTER", icon := "🔥", unlockedAt := now }] else []) ++
      (if task.difficulty = Difficulty.S ∧ "LEGENDARY" ∉ st.achievements.map (fun a => a.id) then
        [{ id := "LEGENDARY", icon := "👑", unlockedAt := now }] else []) ++
      (if 3 ≤ r.newState.level ∧ "VETERAN" ∉ st.achievements.map (fun a => a.id) then
        [{ id := "VETERAN", icon := "🎖️", unlockedAt := now }] else []) ∧
    r.newState.achievements = st.achievements ++ r.achievementsUnlocked := by
  have hc : task.completed = false :=
    completed_false_of_some taskId tasks st now task r hfind hr
  rw [processTaskCompletion_eq_some taskId tasks st now task hfind hc] at hr
  obtain rfl := Option.some.inj hr
  constructor
  · simp only [successResult, intermediateStateFor, checkAchievements]
    refine congrArg₂ (· ++ ·) (congrArg₂ (· ++ ·) (congrArg₂ (· ++ ·) ?_ ?_) ?_) ?_ <;>
      exact ite_cond_congr _ _ (by simp [List.contains]) _ _
  · simp only [successResult]

/-- C5: `processTaskCompletion` returns `none` exactly when no task in the
list has the given id, or the matched (first found) task is already
completed; and after any successful call, calling again with the same
`taskId` on the returned task list yields `none`, whatever snapshot and
timestamp the second call uses.  (The embedding is a total function, so no
exception can be thrown on this path.) -/
theorem C5_noop_condition_and_idempotence (taskId : String) (tasks : List GameTask)
    (st : GameState) (now : Int) :
    (processTaskCompletion taskId tasks st now = none ↔
      (∀ t ∈ tasks, ¬ t.id = taskId) ∨
      (∃ task, tasks.find? (fun t => t.id == taskId) = some task ∧
        task.completed = true)) ∧
    (∀ r, processTaskCompletion taskId tasks st now = some r →
      ∀ st2 now2, processTaskCompletion taskId r.newTasks st2 now2 = none) := by
  constructor
  · constructor
    · intro hnone
      cases hfind : tasks.find? (fun t => t.id == taskId) with
      | none =>
        left
        intro t ht hid
        have hnp := List.find?_eq_none.mp hfind t ht
        simp [hid] at hnp
      | some task =>
        right
        refine ⟨task, rfl, ?_⟩
        by_contra hcomp
        have hc : task.completed = false := Bool.eq_false_iff.mpr hcomp
        rw [processTaskCompletion_eq_some taskId tasks st now task hfind hc] at hnone
        exact Option.noConfusion hnone
    · intro h
      rcases h with h | ⟨task, hfind, hcomp⟩
      · have hfind : tasks.find? (fun t => t.id == taskId) = none :=
          List.find?_eq_none.mpr (fun t ht => by simpa using h t ht)
        exact processTaskCompletion_eq_none_of_find_none taskId tasks st now hfind
      · exact processTaskCompletion_eq_none_of_completed taskId tasks st now task hfind hcomp
  · intro r hr st2 now2
    cases hfind : tasks.find? (fun t => t.id == taskId) with
    | none =>
      rw [processTaskCompletion_eq_none_of_find_none taskId tasks st now hfind] at hr
      exact Option.noConfusion hr
    | some task =>
      have hc : task.completed = false :=
        completed_false_of_some taskId tasks st now task r hfind hr
      rw [processTaskCompletion_eq_some taskId tasks st now task hfind hc] at hr
      obtain rfl := Option.some.inj hr
      have hid : (task.id == taskId) = true := by simpa using List.find?_some hfind
      have hcomp : ∀ l : List GameTask,
          (l.map (fun t => if t.id == taskId then { t with completed := true } else t)).find?
              (fun t => t.id == taskId) =
            (l.find? (fun t => t.id == taskId)).map
              (fun t => if t.id == taskId then { t with completed := true } else t) := by
        intro l
        rw [List.find?_map]
        have hfn : ((fun t : GameTask => t.id == taskId) ∘ fun t =>
            if t.id == taskId then { t with completed := true } else t) =
            (fun t : GameTask => t.id == taskId) := by
          funext t
          by_cases h : (t.id == taskId) = true
          · simp [Function.comp, h]
          · simp [Function.comp, h]
        rw [hfn]
      refine processTaskCompletion_eq_none_of_completed taskId _ st2 now2
        { task with completed := true } ?_ rfl
      show (List.map _ tasks).find? _ = _
      rw [hcomp tasks, hfind]
      have hid2 : task.id = taskId := by simpa using hid
      simp [hid2]

/-- C6: a successful call never reorders or resizes the task list: the
returned list has the same length, every entry whose id differs from
`taskId` is returned unchanged, and every entry whose id matches is the
original record with only its `completed` flag set to `true`.  (The
embedding is a pure function of its arguments, so the inputs themselves
are never mutated, on the `none` path or otherwise.) -/
theorem C6_new_task_list_shape (taskId : String) (tasks : List GameTask)
    (st : GameState) (now : Int) (r : CompletionResult)
    (hr : processTaskCompletion taskId tasks st now = some r) :
    r.newTasks.length = tasks.length ∧
    (∀ (i : Nat) (t0 : GameTask), tasks[i]? = some t0 →
      r.newTasks[i]? =
        some (if t0.id = taskId then { t0 with completed := true } else t0)) := by
  cases hfind : tasks.find? (fun t => t.id == taskId) with
  | none =>
    rw [processTaskCompletion_eq_none_of_find_none taskId tasks st now hfind] at hr
    exact Option.noConfusion hr
  | some task =>
    have hc : task.completed = false :=
      completed_false_of_some taskId tasks st now task r hfind hr
    rw [processTaskCompletion_eq_some taskId tasks st now task hfind hc] at hr
    obtain rfl := Option.some.inj hr
    constructor
    · simp [successResult]
    · intro i t0 ht0
      simp only [successResult, List.getElem?_map, ht0, Option.map_some]
      exact congrArg some (ite_cond_congr _ _ (by simp) _ _)

/-- C7: every non-null result carries `completedTasks` incremented by
exactly one, `comboTriggered` true iff the new combo count exceeds 1, the
awarded (multiplier-floored) XP as `xpGained`, and the delta list of newly
unlocked achievements only — the accumulated set being exactly the old set
with that delta appended.  (A null call returns no snapshot at all, so a
null call changes nothing.) -/
theorem C7_completion_result_contents (taskId : String) (tasks : List GameTask)
    (st : GameState) (now : Int) (task : GameTask) (r : CompletionResult)
    (hfind : tasks.find? (fun t => t.id == taskId) = some task)
    (hr : processTaskCompletion taskId tasks st now = some r) :
    r.newState.completedTasks = st.completedTasks + 1 ∧
    (r.comboTriggered = true ↔ 1 < r.newState.combo.count) ∧
    r.xpGained = (⌊(task.xp : ℚ) * r.newState.combo.multiplier⌋).toNat ∧
    r.newState.achievements = st.achievements ++ r.achievementsUnlocked := by
  have hc : task.completed = false :=
    completed_false_of_some taskId tasks st now task r hfind hr
  rw [processTaskCompletion_eq_some taskId tasks st now task hfind hc] at hr
  obtain rfl := Option.some.inj hr
  refine ⟨?_, ?_, ?_, ?_⟩
  · simp [successResult, intermediateStateFor]
  · simp [successResult, intermediateStateFor]
  · simp only [successResult, intermediateStateFor, awardedXpFor, ratFloor_eq_intFloor]
  · simp only [successResult]

/-- C8: the momentum update appends `last + awardedXp * 0.5` (taking 0 for
the last value of an empty history) and drops the oldest entry exactly when
the appended history would exceed 20 entries; starting from any history of
at most 20 entries the result again has at most 20 entries. -/
theorem C8_momentum_bounded_fifo (history : List ℚ) (xp : ℕ)
    (hlen : history.length ≤ 20) :
    calculateMomentum history xp =
      (if history.length = 20 then
        history.drop 1 ++ [history.getLast?.getD 0 + (xp : ℚ) * 0.5]
      else history ++ [history.getLast?.getD 0 + (xp : ℚ) * 0.5]) ∧
    (calculateMomentum history xp).length ≤ 20 := by
  have hlast : (if history.length > 0 then history.getLast?.getD 0 else 0) =
      history.getLast?.getD 0 := by
    cases history <;> simp
  have hmain : calculateMomentum history xp =
      (if history.length = 20 then
        history.drop 1 ++ [history.getLast?.getD 0 + (xp : ℚ) * 0.5]
      else history ++ [history.getLast?.getD 0 + (xp : ℚ) * 0.5]) := by
    unfold calculateMomentum MOMENTUM_HISTORY_LIMIT
    rw [hlast]
    by_cases h20 : history.length = 20
    · rw [if_pos (by simp; omega), if_pos h20]
      exact List.drop_append_of_le_length (by omega)
    · rw [if_neg (by simp; omega), if_neg h20]
  refine ⟨hmain, ?_⟩
  rw [hmain]
  by_cases h20 : history.length = 20
  · rw [if_pos h20]
    simp
    omega
  · rw [if_neg h20]
    simp
    omega

/-- The ids of the achievements unlocked in one event are pairwise distinct
and none of them was already present in the evaluated state. -/
theorem checkAchievements_fresh_ids (state : GameState) (task : GameTask)
    (isFirst : Bool) (ts : Int) :
    ((checkAchievements state task isFirst ts).map (fun a => a.id)).Nodup ∧
    (∀ a ∈ checkAchievements state task isFirst ts,
      a.id ∉ state.achievements.map (fun a => a.id)) := by
  simp only [checkAchievements]
  split_ifs <;> simp_all [List.contains, List.elem_iff]

/-- C9: a non-null completion only ever appends to the achievement list:
the old entries survive unchanged (the new list is the old list plus a
suffix), nothing is removed, and if the incoming list had no duplicate ids
the outgoing list has none either. -/
theorem C9_achievement_monotone_growth (taskId : String) (tasks : List GameTask)
    (st : GameState) (now : Int) (r : CompletionResult)
    (hr : processTaskCompletion taskId tasks st now = some r) :
    (∃ delta, r.newState.achievements = st.achievements ++ delta) ∧
    (∀ a ∈ st.achievements, a ∈ r.newState.achievements) ∧
    ((st.achievements.map (fun a => a.id)).Nodup →
      (r.newState.achievements.map (fun a => a.id)).Nodup) := by
  cases hfind : tasks.find? (fun t => t.id == taskId) with
  | none =>
    rw [processTaskCompletion_eq_none_of_find_none taskId tasks st now hfind] at hr
    exact Option.noConfusion hr
  | some task =>
    have hc : task.completed = false :=
      completed_false_of_some taskId tasks st now task r hfind hr
    rw [processTaskCompletion_eq_some taskId tasks st now task hfind hc] at hr
    obtain rfl := Option.some.inj hr
    have hfresh := checkAchievements_fresh_ids (intermediateStateFor task st now) task
      (st.completedTasks == 0) now
    have hinter : (intermediateStateFor task st now).achievements = st.achievements := by
      simp [intermediateStateFor]
    rw [hinter] at hfresh
    refine ⟨⟨checkAchievements (intermediateStateFor task st now) task
      (st.completedTasks == 0) now, by simp [successResult]⟩, ?_, ?_⟩
    · intro a ha
      simp only [successResult, List.mem_append]
      exact Or.inl ha
    · intro hnd
      have : (successResult taskId tasks st task now).newState.achievements =
          st.achievements ++ checkAchievements (intermediateStateFor task st now) task
            (st.completedTasks == 0) now := by
        simp [successResult]
      rw [this, List.map_append, List.nodup_append]
      refine ⟨hnd, hfresh.1, ?_⟩
      intro x hx hx2
      obtain ⟨a, ha, rfl⟩ := List.mem_map.mp hx2
      exact hfresh.2 a ha hx

/-- C10: a caller-supplied timestamp of 0 is used as the event time (only an
absent override falls back to the ambient clock), so the returned snapshot
records `lastCompletionTime = 0`; and since 0 is also the "never completed"
sentinel, every later completion from that snapshot resets the combo to
count 1, multiplier 1, with no combo trigger, whatever its timestamp. -/
theorem C10_zero_timestamp_uses_zero_and_poisons_combo (taskId : String)
    (tasks : List GameTask) (st : GameState) (wallClock : Int) :
    processTaskCompletionOpt taskId tasks st (some 0) wallClock =
      processTaskCompletion taskId tasks st 0 ∧
    processTaskCompletionOpt taskId tasks st none wallClock =
      processTaskCompletion taskId tasks st wallClock ∧
    (∀ r, processTaskCompletion taskId tasks st 0 = some r →
      r.newState.combo.lastCompletionTime = 0 ∧
      (∀ (taskId2 : String) (tasks2 : List GameTask) (now2 : Int)
          (r2 : CompletionResult),
        processTaskCompletion taskId2 tasks2 r.newState now2 = some r2 →
        r2.newState.combo.count = 1 ∧ r2.newState.combo.multiplier = 1 ∧
        r2.comboTriggered = false)) := by
  refine ⟨rfl, rfl, ?_⟩
  intro r hr
  cases hfind : tasks.find? (fun t => t.id == taskId) with
  | none =>
    rw [processTaskCompletion_eq_none_of_find_none taskId tasks st 0 hfind] at hr
    exact Option.noConfusion hr
  | some task =>
    have hc : task.completed = false :=
      completed_false_of_some taskId tasks st 0 task r hfind hr
    rw [processTaskCompletion_eq_some taskId tasks st 0 task hfind hc] at hr
    obtain rfl := Option.some.inj hr
    have hzero : (successResult taskId tasks st task 0).newState.combo.lastCompletionTime = 0 := by
      simp [successResult, intermediateStateFor]
    refine ⟨hzero, ?_⟩
    intro taskId2 tasks2 now2 r2 hr2
    generalize hS : (successResult taskId tasks st task 0).newState = S at hzero hr2
    cases hfind2 : tasks2.find? (fun t => t.id == taskId2) with
    | none =>
      rw [processTaskCompletion_eq_none_of_find_none taskId2 tasks2 _ now2 hfind2] at hr2
      exact Option.noConfusion hr2
    | some task2 =>
      have hc2 : task2.completed = false :=
        completed_false_of_some taskId2 tasks2 _ now2 task2 r2 hfind2 hr2
      rw [processTaskCompletion_eq_some taskId2 tasks2 _ now2 task2 hfind2 hc2] at hr2
      obtain rfl := Option.some.inj hr2
      have hch : comboChained S now2 = false := by
        unfold comboChained
        rw [hzero]
        simp
      refine ⟨?_, ?_, ?_⟩
      · simp [successResult, intermediateStateFor, comboCountAfter, hch]
      · simp [successResult, intermediateStateFor, comboMultiplierAfter, hch]
      · simp [successResult, comboCountAfter, hch]

/-- Witness for C3: a chained completion at t = 5000 after t = 1000. -/
theorem C3_witness : rB.newState.combo.count = stChained.combo.count + 1 ∧
    rB.newState.combo.multiplier = 1 + ((stChained.combo.count + 1 : ℕ) : ℚ) * 0.1 :=
  (C3_combo_evaluation_and_award "a" [taskA] stChained 5000 taskA rB (by decide)
    (Option.some_get (by decide)).symm).1 ⟨by decide, by decide⟩

/-- Witness for C4: the accumulated set after a concrete completion is the
old set plus the delta list. -/
theorem C4_witness :
    rA.newState.achievements = createInitialState.achievements ++ rA.achievementsUnlocked :=
  (C4_achievement_rules "a" [taskA] createInitialState 1000 taskA rA (by decide)
    (Option.some_get (by decide)).symm).2

/-- Witness for C5: re-completing the same task id on the returned list is
a no-op. -/
theorem C5_witness : processTaskCompletion "a" rA.newTasks createInitialState 2000 = none :=
  (C5_noop_condition_and_idempotence "a" [taskA] createInitialState 1000).2 rA
    (Option.some_get (by decide)).symm createInitialState 2000

/-- Witness for C6: the returned task list of a concrete call keeps its
length and flips the matched entry. -/
theorem C6_witness : rA.newTasks.length = 1 ∧
    rA.newTasks[0]? =
      some (if taskA.id = "a" then { taskA with completed := true } else taskA) :=
  ⟨(C6_new_task_list_shape "a" [taskA] createInitialState 1000 rA
      (Option.some_get (by decide)).symm).1,
   (C6_new_task_list_shape "a" [taskA] createInitialState 1000 rA
      (Option.some_get (by decide)).symm).2 0 taskA (by decide)⟩

/-- Witness for C7: a concrete completion increments `completedTasks` by
exactly one. -/
theorem C7_witness : rA.newState.completedTasks = createInitialState.completedTasks + 1 :=
  (C7_completion_result_contents "a" [taskA] createInitialState 1000 taskA rA (by decide)
    (Option.some_get (by decide)).symm).1

/-- Witness for C8: the seeded 5-entry history stays within the cap. -/
theorem C8_witness : (calculateMomentum [0, 100, 150, 120, 200] 100).length ≤ 20 :=
  (C8_momentum_bounded_fifo [0, 100, 150, 120, 200] 100 (by decide)).2

/-- Witness for C9: the achievement ids after a concrete completion are
duplicate-free. -/
theorem C9_witness : (rA.newState.achievements.map (fun a => a.id)).Nodup :=
  (C9_achievement_monotone_growth "a" [taskA] createInitialState 1000 rA
    (Option.some_get (by decide)).symm).2.2 (by decide)

/-- Witness for C10: after completing at timestamp 0, a completion 10 ms
later still resets the combo. -/
theorem C10_witness : rD.newState.combo.count = 1 ∧ rD.newState.combo.multiplier = 1 ∧
    rD.comboTriggered = false :=
  ((C10_zero_timestamp_uses_zero_and_poisons_combo "a" [taskA] createInitialState 77).2.2 rC
    (Option.some_get (by decide)).symm).2 "b" [taskB] 10 rD (Option.some_get (by decide)).symm

end IncentiveEngine
